import Mathlib

/-!
Verification development for the protein-designer front end.

The source is a browser application whose testable core consists of:
  * `fetchPdbData` — a two-URL fallback fetch for structure files;
  * `callGeminiAPI` — a bounded exponential-backoff retry loop around the
    model endpoint, followed by JSON extraction from the raw model text;
  * `processApiResponse` — normalization of the parsed model response
    (alias reconciliation, validation, defaulting) plus UI-state updates;
  * `handleGenerate` / `handleEvolve` — the user-action entry points.

JavaScript values are embedded as `JsVal`; JS numbers are embedded as exact
unnormalized fractions `vNum num den` (IEEE-754 rounding is out of scope).
Absent object properties (`undefined`) are embedded as `Option.none`.
Network effects are embedded by passing an explicit transport function and
recording the list of URLs actually requested.
-/

/-- Embedding of a JavaScript (JSON-like) value.  A number is kept as an
exact fraction `num / den` with `den` a positive power of ten produced by
the JSON number grammar. -/
inductive JsVal where
  | vNull : JsVal
  | vBool : Bool → JsVal
  | vNum : Int → Nat → JsVal
  | vStr : String → JsVal
  | vArr : List JsVal → JsVal
  | vObj : List (String × JsVal) → JsVal

/-- JavaScript truthiness of a defined value: `null`, `false`, `0` and the
empty string are falsy; every object and array is truthy. -/
def truthyV : JsVal → Bool
  | JsVal.vNull => false
  | JsVal.vBool b => b
  | JsVal.vNum n _ => if n = 0 then false else true
  | JsVal.vStr s => if s = "" then false else true
  | JsVal.vArr _ => true
  | JsVal.vObj _ => true

/-- JavaScript truthiness with `undefined` (`none`) being falsy. -/
def truthy : Option JsVal → Bool
  | none => false
  | some v => truthyV v

/-- First binding of a key in an object's field list.  JS objects keep one
binding per key (later writes overwrite in place), so field lists built by
the embedding have distinct keys and first-match lookup coincides with JS
property access. -/
def lookupField : List (String × JsVal) → String → Option JsVal
  | [], _ => none
  | (k, v) :: rest, key => if k = key then some v else lookupField rest key

/-- Property access `v[key]`: `undefined` on arrays and primitives. -/
def getField : JsVal → String → Option JsVal
  | JsVal.vObj fs, key => lookupField fs key
  | _, _ => none

/-- The JS `a || b` operator on possibly-undefined values. -/
def jsOr (a b : Option JsVal) : Option JsVal :=
  if truthy a then a else b

/-- The JS `a || d` operator with a defined default `d`, as in
`result.binding_affinity_score || null`. -/
def jsOrD (a : Option JsVal) (d : JsVal) : JsVal :=
  if truthy a then a.getD d else d

/-- Rendering of the numeric payload for string conversion.  Integral
values render exactly as JS does; non-integral fractions use a plain
`num/den` rendering (shortest-round-trip float formatting is out of
scope and never reached by the claims). -/
def jsNumToString (n : Int) (d : Nat) : String :=
  if d = 1 then toString n else toString n ++ "/" ++ toString d

mutual

/-- JS `String(v)` conversion as used by template literals:
`String(null) = "null"`, arrays join their elements with commas, plain
objects render as `"[object Object]"`. -/
def jsToString : JsVal → String
  | JsVal.vNull => "null"
  | JsVal.vBool true => "true"
  | JsVal.vBool false => "false"
  | JsVal.vNum n d => jsNumToString n d
  | JsVal.vStr s => s
  | JsVal.vArr xs => jsJoinList "," xs
  | JsVal.vObj _ => "[object Object]"

/-- JS `Array.prototype.join(sep)`: `null` elements become the empty
string, every other element is converted with `String(·)`. -/
def jsJoinList (sep : String) : List JsVal → String
  | [] => ""
  | [JsVal.vNull] => ""
  | [v] => jsToString v
  | JsVal.vNull :: rest => "" ++ sep ++ jsJoinList sep rest
  | v :: rest => jsToString v ++ sep ++ jsJoinList sep rest

end

/-- Alias chain for the sequence field, from `processApiResponse`:
`result.sequence || result.generated_sequence || result.amino_acid_sequence
|| result.evolved_sequence`. -/
def resolveSequenceRaw (r : JsVal) : Option JsVal :=
  jsOr (getField r "sequence")
    (jsOr (getField r "generated_sequence")
      (jsOr (getField r "amino_acid_sequence") (getField r "evolved_sequence")))

/-- One-level unwrap of a wrapped sequence:
`if (typeof sequence === 'object' && sequence !== null &&
sequence.amino_acid_sequence) sequence = sequence.amino_acid_sequence`.
Arrays have `typeof === 'object'` but an `undefined` (falsy) sub-key, so
they are kept unchanged. -/
def unwrapSequence (sv : Option JsVal) : Option JsVal :=
  match sv with
  | some (JsVal.vObj fs) =>
      if truthy (lookupField fs "amino_acid_sequence") then
        lookupField fs "amino_acid_sequence"
      else some (JsVal.vObj fs)
  | other => other

/-- The resolved sequence value of a response object. -/
def resolveSequence (r : JsVal) : Option JsVal :=
  unwrapSequence (resolveSequenceRaw r)

/-- Alias chain and object flattening for the analysis field:
`result.analysis || result.analysis_function || result.function_analysis ||
result.analysis_goal || "Analysis not provided."`, then
`Object.values(analysisValue).join(' \n\n')` when the value is a non-null
object.  Arrays also have `typeof === 'object'`, and `Object.values` of an
array is its element list. -/
def resolveAnalysis (r : JsVal) : JsVal :=
  let a0 := jsOrD
    (jsOr (getField r "analysis")
      (jsOr (getField r "analysis_function")
        (jsOr (getField r "function_analysis") (getField r "analysis_goal"))))
    (JsVal.vStr "Analysis not provided.")
  match a0 with
  | JsVal.vObj fs => JsVal.vStr (jsJoinList " \n\n" (fs.map Prod.snd))
  | JsVal.vArr xs => JsVal.vStr (jsJoinList " \n\n" xs)
  | v => v

/-- The validation test `!(!sequence || typeof sequence !== 'string' ||
...)` on the sequence part: a defined string value that is truthy, i.e. a
non-empty string. -/
def isNonEmptyString : Option JsVal → Bool
  | some (JsVal.vStr s) => if s = "" then false else true
  | _ => false

/-- Underlying string of a resolved sequence value (defined exactly on the
accepted case). -/
def strOfSeq : Option JsVal → String
  | some (JsVal.vStr s) => s
  | _ => ""

/-- The reason attached to an incomplete-response failure:
`analysisValue || result.error || "The AI did not provide a valid sequence
or PDB ID."`.  Note `analysisValue` at this point already contains the
`"Analysis not provided."` default when no analysis alias was present. -/
def incompleteReason (analysisValue : JsVal) (r : JsVal) : JsVal :=
  if truthyV analysisValue then analysisValue
  else jsOrD (getField r "error")
    (JsVal.vStr "The AI did not provide a valid sequence or PDB ID.")

/-- Failure cases of `processApiResponse`'s normalization step. -/
inductive ProcessError where
  | notAnObject : ProcessError
  | incomplete : JsVal → ProcessError

/-- The normalized design record produced by the accepting path of
`processApiResponse` (the arguments of the seven state setters plus the
identifier used for the structure fetch). -/
structure NormalizedResult where
  sequence : String
  analysis : JsVal
  bindingAffinity : JsVal
  predictedStability : JsVal
  bindingPocketResidues : JsVal
  designConfidence : JsVal
  validationSteps : JsVal
  pdbId : JsVal

/-- The test `typeof result === 'object' && result !== null`. -/
def isObjectLike : JsVal → Bool
  | JsVal.vArr _ => true
  | JsVal.vObj _ => true
  | _ => false

/-- Normalization core of `processApiResponse`: object check, alias
reconciliation, one-level sequence unwrap, analysis flattening,
validation, and `||`-defaulting of the optional fields. -/
def processResult (r : JsVal) : Except ProcessError NormalizedResult :=
  if isObjectLike r = false then Except.error ProcessError.notAnObject
  else
    let seq := resolveSequence r
    let pid := getField r "pdb_id"
    let analysisValue := resolveAnalysis r
    if isNonEmptyString seq && truthy pid then
      Except.ok
        { sequence := strOfSeq seq
          analysis := analysisValue
          bindingAffinity := jsOrD
            (jsOr (getField r "binding_affinity_score")
              (getField r "simulated_binding_affinity_score")) JsVal.vNull
          predictedStability :=
            jsOrD (getField r "predicted_stability_score") JsVal.vNull
          bindingPocketResidues :=
            jsOrD (getField r "binding_pocket_residues") (JsVal.vArr [])
          designConfidence :=
            jsOrD (getField r "design_confidence") (JsVal.vStr "Unknown")
          validationSteps :=
            jsOrD (getField r "experimental_validation_steps") (JsVal.vArr [])
          pdbId := pid.getD JsVal.vNull }
    else Except.error (ProcessError.incomplete (incompleteReason analysisValue r))

/-! ## Model client retry loop (`callGeminiAPI`, fetch segment) -/

/-- Outcome of one transport-level request: success status with a payload,
a non-success HTTP status, or a thrown network error. -/
inductive NetOutcome (α : Type) where
  | ok : α → NetOutcome α
  | httpError : NetOutcome α
  | netError : NetOutcome α

/-- Whether a transport outcome is `response.ok`. -/
def NetOutcome.isOk : NetOutcome α → Bool
  | NetOutcome.ok _ => true
  | _ => false

/-- The retry loop of `callGeminiAPI`:
`for (let i = 0; i < 5; i++) { try { response = await fetch(...); if
(response.ok) break; } catch {} await sleep(delay); delay *= 2; }`.
Arguments: attempt transport, remaining iterations, next attempt index,
current delay, accumulated sleeps (most recent first).  Returns the first
successful payload (if any), the number of fetch attempts performed, and
the sleep durations in chronological order. -/
def retryGo (t : Nat → NetOutcome α) :
    Nat → Nat → Nat → List Nat → Option α × Nat × List Nat
  | 0, i, _, waits => (none, i, waits.reverse)
  | remaining + 1, i, delay, waits =>
    match t i with
    | NetOutcome.ok p => (some p, i + 1, waits.reverse)
    | _ => retryGo t remaining (i + 1) (delay * 2) (delay :: waits)

/-- The retry loop with its literal initial parameters: 5 iterations,
initial delay 1000 ms. -/
def retryFetch (t : Nat → NetOutcome α) : Option α × Nat × List Nat :=
  retryGo t 5 0 1000 []

/-- The error thrown after the loop when no attempt had a success status:
`if (!response || !response.ok) throw new Error(...)`. -/
def oracleUnavailableMsg : String :=
  "AI model failed to respond after retries."

/-- The transport segment of `callGeminiAPI`: run the retry loop and
either return the successful raw payload uninterpreted or throw the
aggregated retries-exhausted error. -/
def callModelTransport (t : Nat → NetOutcome α) : Except String α :=
  match retryFetch t with
  | (some p, _, _) => Except.ok p
  | (none, _, _) => Except.error oracleUnavailableMsg

/-! ## Structure fetcher (`fetchPdbData`) -/

/-- ASCII embedding of `String.prototype.toUpperCase` (structure
identifiers are ASCII). -/
def jsToUpperCase (s : String) : String :=
  String.mk (s.toList.map Char.toUpper)

/-- The ordered candidate URL list of `fetchPdbData`, built from the
uppercased identifier. -/
def urlsToTry (pid : String) : List String :=
  ["https://files.rcsb.org/view/" ++ jsToUpperCase pid ++ ".pdb",
   "https://models.rcsb.org/" ++ jsToUpperCase pid ++ ".pdb"]

/-- The `for (const url of urlsToTry)` loop: request each URL once in
order, return the first success body; non-success statuses and thrown
errors both fall through to the next candidate.  Also returns the list of
URLs actually requested, in order. -/
def fetchLoop (net : String → NetOutcome String) :
    List String → Option String × List String
  | [] => (none, [])
  | url :: rest =>
    match net url with
    | NetOutcome.ok body => (some body, [url])
    | _ =>
      let tailRes := fetchLoop net rest
      (tailRes.1, url :: tailRes.2)

/-- `fetchPdbData`: falsy identifiers (undefined, null, empty string, 0,
false) return `null` before any URL is built; a string identifier runs the
candidate loop; a truthy non-string identifier would throw a `TypeError`
at `pdbId.toUpperCase()`, embedded as the `Except.error` case. -/
def fetchPdbData (pdbId : Option JsVal) (net : String → NetOutcome String) :
    Except String (Option String × List String) :=
  if truthy pdbId = false then Except.ok (none, [])
  else
    match pdbId with
    | some (JsVal.vStr s) => Except.ok (fetchLoop net (urlsToTry s))
    | _ => Except.error "pdbId.toUpperCase is not a function"

/-! ## Application state controller -/

/-- The `useState` slots of the `App` component that the pipeline touches. -/
structure AppState where
  prompt : String
  evolutionPrompt : String
  generatedSequence : String
  pdbData : Option String
  isLoading : Bool
  error : String
  analysis : JsVal
  bindingAffinity : JsVal
  predictedStability : JsVal
  bindingPocketResidues : JsVal
  designConfidence : JsVal
  validationSteps : JsVal

/-- The initial state of the component's `useState` declarations. -/
def initialState : AppState :=
  { prompt := "An enzyme that can bind to and degrade PET plastic."
    evolutionPrompt := "Improve binding affinity by 10%."
    generatedSequence := ""
    pdbData := none
    isLoading := false
    error := ""
    analysis := JsVal.vStr ""
    bindingAffinity := JsVal.vNull
    predictedStability := JsVal.vNull
    bindingPocketResidues := JsVal.vArr []
    designConfidence := JsVal.vStr ""
    validationSteps := JsVal.vArr [] }

/-- User-visible message of a normalization failure, from the two `throw
new Error(...)` sites of `processApiResponse`. -/
def processErrorMessage : ProcessError → String
  | ProcessError.notAnObject => "AI response was not a valid object."
  | ProcessError.incomplete reason =>
      "AI response was incomplete. Reason provided: \"" ++ jsToString reason ++ "\""

/-- The non-fatal warning shown when the structure fetch returns `null`. -/
def fetchWarnMsg (pid : JsVal) : String :=
  "Could not fetch 3D structure for PDB ID: " ++ jsToString pid ++
    ". Displaying results only."

/-- `processApiResponse`: set the busy flag, clear the error banner, await
the oracle call, normalize, on success populate the result fields and then
fetch the structure; every failure is caught and converted into an error
message, and the busy flag is cleared in `finally`.  The oracle call and
the network are passed in explicitly. -/
def processApiResponse (st : AppState) (apiCall : Except String JsVal)
    (net : String → NetOutcome String) : AppState :=
  let st1 := { st with isLoading := true, error := "" }
  match apiCall with
  | Except.error msg => { st1 with isLoading := false, error := msg }
  | Except.ok result =>
    match processResult result with
    | Except.error e =>
        { st1 with isLoading := false, error := processErrorMessage e }
    | Except.ok nr =>
      let st2 := { st1 with
        generatedSequence := nr.sequence
        analysis := nr.analysis
        bindingAffinity := nr.bindingAffinity
        predictedStability := nr.predictedStability
        bindingPocketResidues := nr.bindingPocketResidues
        designConfidence := nr.designConfidence
        validationSteps := nr.validationSteps }
      match fetchPdbData (some nr.pdbId) net with
      | Except.error msg => { st2 with isLoading := false, error := msg }
      | Except.ok (some pdb, _) =>
          { st2 with isLoading := false, pdbData := some pdb }
      | Except.ok (none, _) =>
          { st2 with
            isLoading := false
            pdbData := none
            error := fetchWarnMsg nr.pdbId }

/-- `handleGenerate`: run the pipeline on the current prompt (the built
oracle call is passed in explicitly). -/
def handleGenerate (st : AppState) (apiCall : Except String JsVal)
    (net : String → NetOutcome String) : AppState :=
  processApiResponse st apiCall net

/-- The local guard message of `handleEvolve`. -/
def noPriorDesignMsg : String :=
  "You must generate a protein first before evolving it."

/-- `handleEvolve`: if no sequence was generated yet, set the guard error
and return without touching anything else; otherwise run the pipeline. -/
def handleEvolve (st : AppState) (apiCall : Except String JsVal)
    (net : String → NetOutcome String) : AppState :=
  if st.generatedSequence = "" then { st with error := noPriorDesignMsg }
  else processApiResponse st apiCall net

/-! ## Oracle raw-text normalization (`callGeminiAPI`, parsing segment)

The source extracts a candidate JSON span with the greedy regular
expression match `text.match(...)` spanning from the first opening brace
to the last closing brace, falls back to stripping code fences, and runs
`JSON.parse`.  `JSON.parse` is embedded below as a fuel-based
recursive-descent parser of the JSON grammar (numbers as exact fractions,
duplicate object keys overwritten in place as in JS). -/

/-- JSON insignificant whitespace. -/
def isJsonWs (c : Char) : Bool :=
  c == ' ' || c == '\n' || c == '\r' || c == '\t'

/-- Skip leading JSON whitespace. -/
def skipWs : List Char → List Char
  | [] => []
  | c :: cs => if isJsonWs c then skipWs cs else c :: cs

/-- Value of one hexadecimal digit. -/
def hexVal (c : Char) : Option Nat :=
  if '0' ≤ c ∧ c ≤ '9' then some (c.toNat - 48)
  else if 'a' ≤ c ∧ c ≤ 'f' then some (c.toNat - 87)
  else if 'A' ≤ c ∧ c ≤ 'F' then some (c.toNat - 55)
  else none

/-- Body of a JSON string literal after the opening quote: handles the
escapes of the JSON grammar and rejects unescaped control characters. -/
def parseStrChars : List Char → List Char → Option (String × List Char)
  | acc, '"' :: rest => some (String.mk acc.reverse, rest)
  | acc, '\\' :: '"' :: r => parseStrChars ('"' :: acc) r
  | acc, '\\' :: '\\' :: r => parseStrChars ('\\' :: acc) r
  | acc, '\\' :: '/' :: r => parseStrChars ('/' :: acc) r
  | acc, '\\' :: 'b' :: r => parseStrChars (Char.ofNat 8 :: acc) r
  | acc, '\\' :: 'f' :: r => parseStrChars (Char.ofNat 12 :: acc) r
  | acc, '\\' :: 'n' :: r => parseStrChars ('\n' :: acc) r
  | acc, '\\' :: 'r' :: r => parseStrChars ('\r' :: acc) r
  | acc, '\\' :: 't' :: r => parseStrChars ('\t' :: acc) r
  | acc, '\\' :: 'u' :: h1 :: h2 :: h3 :: h4 :: r =>
    match hexVal h1, hexVal h2, hexVal h3, hexVal h4 with
    | some a, some b, some c, some d =>
        parseStrChars (Char.ofNat (4096 * a + 256 * b + 16 * c + d) :: acc) r
    | _, _, _, _ => none
  | _, '\\' :: _ => none
  | acc, c :: rest =>
      if c.toNat < 32 then none else parseStrChars (c :: acc) rest
  | _, [] => none

/-- Longest leading run of decimal digits and the remainder. -/
def takeDigits : List Char → List Char × List Char
  | [] => ([], [])
  | c :: cs =>
    if c.isDigit then
      let p := takeDigits cs
      (c :: p.1, p.2)
    else ([], c :: cs)

/-- Decimal value of a digit run. -/
def digitsToNat (ds : List Char) : Nat :=
  ds.foldl (fun acc c => 10 * acc + (c.toNat - 48)) 0

/-- Optional fraction part of a JSON number: returns its digit value, the
power-of-ten denominator, and the remainder; a dot without digits is a
syntax error. -/
def parseFrac : List Char → Option (Nat × Nat × List Char)
  | '.' :: r =>
    match takeDigits r with
    | ([], _) => none
    | (ds, rest) => some (digitsToNat ds, 10 ^ ds.length, rest)
  | cs => some (0, 1, cs)

/-- Digits of an exponent with its sign already consumed. -/
def parseExpNum (negExp : Bool) (cs : List Char) : Option (Int × List Char) :=
  match takeDigits cs with
  | ([], _) => none
  | (ds, rest) =>
    let e : Int := Int.ofNat (digitsToNat ds)
    some (if negExp then -e else e, rest)

/-- Optional exponent part of a JSON number. -/
def parseExpPart : List Char → Option (Int × List Char)
  | 'e' :: '+' :: r => parseExpNum false r
  | 'e' :: '-' :: r => parseExpNum true r
  | 'e' :: r => parseExpNum false r
  | 'E' :: '+' :: r => parseExpNum false r
  | 'E' :: '-' :: r => parseExpNum true r
  | 'E' :: r => parseExpNum false r
  | cs => some (0, cs)

/-- A JSON number per the grammar `-?(0|[1-9][0-9]*)(.[0-9]+)?(eE...)?`,
returned as an exact fraction (numerator, power-of-ten denominator). -/
def parseNumber (cs : List Char) : Option ((Int × Nat) × List Char) :=
  let signed : Bool × List Char :=
    match cs with
    | '-' :: r => (true, r)
    | _ => (false, cs)
  match signed.2 with
  | [] => none
  | c :: r =>
    let intPart : Option (Nat × List Char) :=
      if c = '0' then some (0, r)
      else if c.isDigit then
        let p := takeDigits (c :: r)
        some (digitsToNat p.1, p.2)
      else none
    match intPart with
    | none => none
    | some (ip, rest1) =>
      match parseFrac rest1 with
      | none => none
      | some (fv, fd, rest2) =>
        match parseExpPart rest2 with
        | none => none
        | some (e, rest3) =>
          let num0 : Int := Int.ofNat (ip * fd + fv)
          let num1 : Int := if signed.1 then -num0 else num0
          if 0 ≤ e then some ((num1 * ((10 ^ e.toNat : Nat) : Int), fd), rest3)
          else some ((num1, fd * 10 ^ (-e).toNat), rest3)

/-- Write/overwrite one key of a JS object, keeping first-write key order
as JS property assignment does. -/
def insertField (fs : List (String × JsVal)) (k : String) (v : JsVal) :
    List (String × JsVal) :=
  match fs with
  | [] => [(k, v)]
  | (k0, v0) :: rest =>
    if k0 = k then (k0, v) :: rest else (k0, v0) :: insertField rest k v

mutual

/-- One JSON value (fuel-based recursive descent). -/
def parseJsonVal : Nat → List Char → Option (JsVal × List Char)
  | 0, _ => none
  | fuel + 1, cs =>
    match skipWs cs with
    | '\x7b' :: rest =>
      match skipWs rest with
      | '\x7d' :: r2 => some (JsVal.vObj [], r2)
      | r2 => parseJsonMembers fuel r2 []
    | '[' :: rest =>
      match skipWs rest with
      | ']' :: r2 => some (JsVal.vArr [], r2)
      | r2 => parseJsonElems fuel r2 []
    | '"' :: rest =>
      match parseStrChars [] rest with
      | some (s, r) => some (JsVal.vStr s, r)
      | none => none
    | 't' :: 'r' :: 'u' :: 'e' :: r => some (JsVal.vBool true, r)
    | 'f' :: 'a' :: 'l' :: 's' :: 'e' :: r => some (JsVal.vBool false, r)
    | 'n' :: 'u' :: 'l' :: 'l' :: r => some (JsVal.vNull, r)
    | other =>
      match parseNumber other with
      | some ((n, d), r) => some (JsVal.vNum n d, r)
      | none => none

/-- Members of a JSON object after the opening brace (non-empty case). -/
def parseJsonMembers :
    Nat → List Char → List (String × JsVal) → Option (JsVal × List Char)
  | 0, _, _ => none
  | fuel + 1, cs, acc =>
    match skipWs cs with
    | '"' :: rest =>
      match parseStrChars [] rest with
      | none => none
      | some (key, r1) =>
        match skipWs r1 with
        | ':' :: r2 =>
          match parseJsonVal fuel r2 with
          | none => none
          | some (v, r3) =>
            match skipWs r3 with
            | ',' :: r4 => parseJsonMembers fuel r4 (insertField acc key v)
            | '\x7d' :: r4 => some (JsVal.vObj (insertField acc key v), r4)
            | _ => none
        | _ => none
    | _ => none

/-- Elements of a JSON array after the opening bracket (non-empty case). -/
def parseJsonElems :
    Nat → List Char → List JsVal → Option (JsVal × List Char)
  | 0, _, _ => none
  | fuel + 1, cs, acc =>
    match parseJsonVal fuel cs with
    | none => none
    | some (v, r1) =>
      match skipWs r1 with
      | ',' :: r2 => parseJsonElems fuel r2 (acc ++ [v])
      | ']' :: r2 => some (JsVal.vArr (acc ++ [v]), r2)
      | _ => none

end

/-- `JSON.parse`: one value, then nothing but whitespace may remain. -/
def jsonParse (s : String) : Option JsVal :=
  match parseJsonVal (2 * s.toList.length + 2) s.toList with
  | some (v, rest) => if skipWs rest = [] then some v else none
  | none => none

/-- Index of the first occurrence of a character. -/
def firstIdxAux (c : Char) : List Char → Nat → Option Nat
  | [], _ => none
  | x :: xs, i => if x = c then some i else firstIdxAux c xs (i + 1)

/-- Index of the first occurrence of a character. -/
def firstCharIdx (c : Char) (cs : List Char) : Option Nat :=
  firstIdxAux c cs 0

/-- Index of the last occurrence of a character. -/
def lastCharIdx (c : Char) (cs : List Char) : Option Nat :=
  match firstCharIdx c cs.reverse with
  | none => none
  | some k => some (cs.length - 1 - k)

/-- Remainder after removing a leading pattern, when it is there. -/
def dropPat : List Char → List Char → Option (List Char)
  | [], cs => some cs
  | _ :: _, [] => none
  | p :: ps, c :: cs => if p = c then dropPat ps cs else none

/-- Replace every non-overlapping occurrence of a pattern, left to right
(the `/g`-flagged `String.prototype.replace`), with fuel. -/
def replaceFuel (pat rep : List Char) : Nat → List Char → List Char
  | 0, cs => cs
  | _ + 1, [] => []
  | fuel + 1, c :: cs =>
    match dropPat pat (c :: cs) with
    | some rest => rep ++ replaceFuel pat rep fuel rest
    | none => c :: replaceFuel pat rep fuel cs

/-- `String.prototype.replace` with a `/g` flag and a plain pattern. -/
def jsReplaceAll (s pat rep : String) : String :=
  String.mk (replaceFuel pat.toList rep.toList (s.toList.length + 1) s.toList)

/-- ASCII whitespace trimmed by `String.prototype.trim`. -/
def isJsTrimWs (c : Char) : Bool :=
  c == ' ' || c == '\t' || c == '\n' || c == '\r' ||
    c == Char.ofNat 11 || c == Char.ofNat 12

/-- Drop leading trim-whitespace. -/
def dropWhileWs : List Char → List Char
  | [] => []
  | c :: cs => if isJsTrimWs c then dropWhileWs cs else c :: cs

/-- `String.prototype.trim` (ASCII whitespace). -/
def jsTrim (s : String) : String :=
  String.mk ((dropWhileWs (dropWhileWs s.toList).reverse).reverse)

/-- The fallback branch of the extraction:
`text.replace(/```json/g, '').replace(/```/g, '').trim()`. -/
def stripFences (text : String) : String :=
  jsTrim (jsReplaceAll (jsReplaceAll text "```json" "") "```" "")

/-- The candidate-JSON extraction of `callGeminiAPI`.  The greedy regex
matches, whenever the text contains an opening brace with some closing
brace after it, the span from the first opening brace to the last closing
brace; otherwise the code-fence markers are stripped and the text
trimmed. -/
def extractCandidate (text : String) : String :=
  let cs := text.toList
  match firstCharIdx '\x7b' cs, lastCharIdx '\x7d' cs with
  | some i, some j =>
    if i < j then String.mk ((cs.drop i).take (j - i + 1))
    else stripFences text
  | _, _ => stripFences text

/-- Failure cases of the raw-text parsing segment of `callGeminiAPI`. -/
inductive OracleError where
  | emptyOracleResponse : OracleError
  | malformedOracleJson : OracleError
deriving DecidableEq

/-- The parsing segment of `callGeminiAPI` applied to the oracle's raw
text: empty text throws the empty-response error, then the candidate span
is extracted and parsed; parse failure throws the malformed-JSON error. -/
def parseOracleText (text : String) : Except OracleError JsVal :=
  if text = "" then Except.error OracleError.emptyOracleResponse
  else
    match jsonParse (extractCandidate text) with
    | some v => Except.ok v
    | none => Except.error OracleError.malformedOracleJson

/-- Scan for the closing brace matching an already-seen opening brace,
tracking nesting depth and accumulating the span in reverse. -/
def scanBalanced : Nat → List Char → List Char → Option (List Char)
  | _, _, [] => none
  | depth, acc, c :: cs =>
    if c = '\x7b' then scanBalanced (depth + 1) (c :: acc) cs
    else if c = '\x7d' then
      if depth = 1 then some (c :: acc).reverse
      else scanBalanced (depth - 1) (c :: acc) cs
    else scanBalanced depth (c :: acc) cs

/-- Helper for `specFirstBalancedSpan`: try each opening brace in turn. -/
def specFirstBalancedSpanAux : List Char → Option String
  | [] => none
  | c :: cs =>
    if c = '\x7b' then
      match scanBalanced 1 ['\x7b'] cs with
      | some span => some (String.mk span)
      | none => specFirstBalancedSpanAux cs
    else specFirstBalancedSpanAux cs

/-- Modelled from the spec: the "first balanced span" extraction that the
specification (section 4.3, step 2) attributes to the code.  It is stated
here only to compare against the greedy `extractCandidate` actually
implemented. -/
def specFirstBalancedSpan (text : String) : Option String :=
  specFirstBalancedSpanAux text.toList

/-- Modelled from the spec: the claim's alias rule "take the first
present, non-null alias", stated to compare against the `||`-chains of
the code, which skip every falsy alias (empty strings included). -/
def specFirstPresentNonNull (r : JsVal) : List String → Option JsVal
  | [] => none
  | k :: rest =>
    match getField r k with
    | none => specFirstPresentNonNull r rest
    | some JsVal.vNull => specFirstPresentNonNull r rest
    | some v => some v

/-- The sequence alias keys in priority order. -/
def seqAliasKeys : List String :=
  ["sequence", "generated_sequence", "amino_acid_sequence", "evolved_sequence"]

/-- The analysis alias keys in priority order. -/
def analysisAliasKeys : List String :=
  ["analysis", "analysis_function", "function_analysis", "analysis_goal"]

/-! ## Concrete inputs used by the theorems below -/

/-- The accepted record for a response that provides only a sequence and
an identifier: every optional field takes its defaulted value. -/
def mkDefaultRes (s pid : String) : NormalizedResult :=
  { sequence := s
    analysis := JsVal.vStr "Analysis not provided."
    bindingAffinity := JsVal.vNull
    predictedStability := JsVal.vNull
    bindingPocketResidues := JsVal.vArr []
    designConfidence := JsVal.vStr "Unknown"
    validationSteps := JsVal.vArr []
    pdbId := JsVal.vStr pid }

/-- Minimal accepted response object. -/
def baseObj : JsVal :=
  JsVal.vObj [("sequence", JsVal.vStr "MVLK"), ("pdb_id", JsVal.vStr "1ABC")]

/-- Accepted response carrying the two numeric score fields. -/
def mkNums (aff stab : JsVal) : JsVal :=
  JsVal.vObj [("sequence", JsVal.vStr "MVLK"), ("pdb_id", JsVal.vStr "1ABC"),
    ("binding_affinity_score", aff), ("predicted_stability_score", stab)]

/-- Accepted response carrying the two list fields. -/
def mkLists (xs ys : List JsVal) : JsVal :=
  JsVal.vObj [("sequence", JsVal.vStr "MVLK"), ("pdb_id", JsVal.vStr "1ABC"),
    ("binding_pocket_residues", JsVal.vArr xs),
    ("experimental_validation_steps", JsVal.vArr ys)]

/-- Incomplete response (no identifier) that carries an `error` field but
no analysis alias. -/
def r1cx : JsVal :=
  JsVal.vObj [("sequence", JsVal.vStr "MVLK"), ("error", JsVal.vStr "quota exceeded")]

/-- Response whose first sequence alias is present and non-null but empty,
with a non-empty second alias. -/
def r3cx : JsVal :=
  JsVal.vObj [("sequence", JsVal.vStr ""), ("generated_sequence", JsVal.vStr "MVLK"),
    ("pdb_id", JsVal.vStr "1ABC")]

/-- A state holding the results of an earlier successful design. -/
def stOld : AppState :=
  { initialState with
    generatedSequence := "OLDSEQ"
    pdbData := some "OLDPDB"
    analysis := JsVal.vStr "old analysis"
    bindingAffinity := JsVal.vNum (-7) 1
    predictedStability := JsVal.vNum 2 1
    bindingPocketResidues := JsVal.vArr [JsVal.vNum 5 1]
    designConfidence := JsVal.vStr "High"
    validationSteps := JsVal.vArr [JsVal.vStr "assay"] }

/-- Transport where only the second structure source succeeds. -/
def netW : String → NetOutcome String := fun u =>
  if u = "https://models.rcsb.org/1ABC.pdb" then NetOutcome.ok "BODY2"
  else NetOutcome.httpError

/-- The code-fenced oracle reply quoted by the specification. -/
def fencedText : String :=
  "here is your answer: ```json \x7b\"sequence\":\"MVLK\",\"pdb_id\":\"1ABC\"\x7d ``` thanks!"

/-- Raw text containing two disjoint JSON objects. -/
def twoObjText : String := "\x7b\"a\":1\x7d x \x7b\"b\":2\x7d"

/-! ## Helper lemmas -/

/-- A value passing the non-empty-string test has a non-empty underlying
string. -/
theorem strOfSeq_ne (o : Option JsVal) (h : isNonEmptyString o = true) :
    strOfSeq o ≠ "" := by
  cases o with
  | none => simp [isNonEmptyString] at h
  | some v =>
    cases v with
    | vStr s =>
      simp only [isNonEmptyString] at h
      split at h
      · cases h
      · rename_i hne
        simpa [strOfSeq] using hne
    | vNull => simp [isNonEmptyString] at h
    | vBool b => simp [isNonEmptyString] at h
    | vNum n d => simp [isNonEmptyString] at h
    | vArr xs => simp [isNonEmptyString] at h
    | vObj fs => simp [isNonEmptyString] at h

/-- The retry loop performs at most `i + r` fetch attempts when started at
attempt index `i` with `r` iterations left. -/
theorem retryGo_attempts_le {α : Type} (t : Nat → NetOutcome α) :
    ∀ (r i d : Nat) (w : List Nat), (retryGo t r i d w).2.1 ≤ i + r := by
  intro r
  induction r with
  | zero =>
    intro i d w
    simp [retryGo]
  | succ n ih =>
    intro i d w
    cases h : t i with
    | ok p =>
      simp [retryGo, h]
    | httpError =>
      have h2 := ih (i + 1) (d * 2) (d :: w)
      simp only [retryGo, h]
      omega
    | netError =>
      have h2 := ih (i + 1) (d * 2) (d :: w)
      simp only [retryGo, h]
      omega

/-- Started with delay `1000 * 2 ^ k` and the first `k` doubled delays
already slept, the loop's chronological sleep list is a doubling schedule
from 1000 ms. -/
theorem retryGo_waits_geom {α : Type} (t : Nat → NetOutcome α) :
    ∀ (r i k : Nat), ∃ m,
      (retryGo t r i (1000 * 2 ^ k)
        (((List.range k).map (fun j => 1000 * 2 ^ j)).reverse)).2.2
        = (List.range m).map (fun j => 1000 * 2 ^ j) := by
  intro r
  induction r with
  | zero =>
    intro i k
    exact ⟨k, by simp [retryGo]⟩
  | succ n ih =>
    intro i k
    cases h : t i with
    | ok p => exact ⟨k, by simp [retryGo, h]⟩
    | httpError =>
      obtain ⟨m, hm⟩ := ih (i + 1) (k + 1)
      refine ⟨m, ?_⟩
      have e1 : 1000 * 2 ^ k * 2 = 1000 * 2 ^ (k + 1) := by ring
      have e2 : (1000 * 2 ^ k) :: ((List.range k).map (fun j => 1000 * 2 ^ j)).reverse
          = ((List.range (k + 1)).map (fun j => 1000 * 2 ^ j)).reverse := by
        simp [List.range_succ]
      simp only [retryGo, h]
      rw [e1, e2]
      exact hm
    | netError =>
      obtain ⟨m, hm⟩ := ih (i + 1) (k + 1)
      refine ⟨m, ?_⟩
      have e1 : 1000 * 2 ^ k * 2 = 1000 * 2 ^ (k + 1) := by ring
      have e2 : (1000 * 2 ^ k) :: ((List.range k).map (fun j => 1000 * 2 ^ j)).reverse
          = ((List.range (k + 1)).map (fun j => 1000 * 2 ^ j)).reverse := by
        simp [List.range_succ]
      simp only [retryGo, h]
      rw [e1, e2]
      exact hm

/-! ## Claim C2 -/

/-- Claim C2: the model client makes at most 5 request attempts and its
sleeps follow the doubling schedule starting at 1000 ms; with a transport
failing 4 times then succeeding, exactly 5 attempts are made, the
cumulative waiting is 1000+2000+4000+8000 = 15000 ms, and the payload is
returned uninterpreted; with a transport that always fails, exactly
5 attempts are made and the client fails with the aggregated
oracle-unavailable error; on an immediately successful attempt a single
attempt is made with no waits. -/
theorem c2_retry_theorem :
    (∀ (α : Type) (t : Nat → NetOutcome α), (retryFetch t).2.1 ≤ 5)
  ∧ (∀ (α : Type) (t : Nat → NetOutcome α), ∃ m,
      (retryFetch t).2.2 = (List.range m).map (fun j => 1000 * 2 ^ j))
  ∧ (∀ p : String,
      retryFetch (fun i => if i < 4 then NetOutcome.netError else NetOutcome.ok p)
        = (some p, 5, [1000, 2000, 4000, 8000]))
  ∧ ([1000, 2000, 4000, 8000].sum = 15000)
  ∧ (retryFetch (fun _ => (NetOutcome.netError : NetOutcome String))
        = (none, 5, [1000, 2000, 4000, 8000, 16000]))
  ∧ (∀ (α : Type) (p : α), retryFetch (fun _ => NetOutcome.ok p) = (some p, 1, []))
  ∧ (callModelTransport (fun _ => (NetOutcome.netError : NetOutcome String))
        = Except.error oracleUnavailableMsg)
  ∧ (∀ p : String,
      callModelTransport (fun i => if i < 4 then NetOutcome.netError else NetOutcome.ok p)
        = Except.ok p) := by
  refine ⟨?_, ?_, fun p => rfl, rfl, rfl, fun α p => rfl, rfl, fun p => rfl⟩
  · intro α t
    exact retryGo_attempts_le t 5 0 1000 []
  · intro α t
    have hg := retryGo_waits_geom t 5 0 0
    simpa [retryFetch] using hg

/-! ## Claim C6 -/

/-- Claim C6: for a non-empty identifier the structure fetcher uppercases
it and tries exactly the two fixed candidate URLs in order: a success on
the first URL returns its body without requesting the second; a
non-success first URL with a success on the second returns the second's
body; if both fail (non-success status or thrown error) the fetcher
returns null without raising, each URL having been requested exactly
once. -/
theorem c6_theorem (pid : String) (net : String → NetOutcome String)
    (hp : pid ≠ "") :
    (∀ b, net ("https://files.rcsb.org/view/" ++ jsToUpperCase pid ++ ".pdb")
        = NetOutcome.ok b →
      fetchPdbData (some (JsVal.vStr pid)) net
        = Except.ok (some b,
            ["https://files.rcsb.org/view/" ++ jsToUpperCase pid ++ ".pdb"]))
  ∧ ((net ("https://files.rcsb.org/view/" ++ jsToUpperCase pid ++ ".pdb")).isOk = false →
      ∀ b, net ("https://models.rcsb.org/" ++ jsToUpperCase pid ++ ".pdb")
          = NetOutcome.ok b →
      fetchPdbData (some (JsVal.vStr pid)) net
        = Except.ok (some b,
            ["https://files.rcsb.org/view/" ++ jsToUpperCase pid ++ ".pdb",
             "https://models.rcsb.org/" ++ jsToUpperCase pid ++ ".pdb"]))
  ∧ ((net ("https://files.rcsb.org/view/" ++ jsToUpperCase pid ++ ".pdb")).isOk = false →
      (net ("https://models.rcsb.org/" ++ jsToUpperCase pid ++ ".pdb")).isOk = false →
      fetchPdbData (some (JsVal.vStr pid)) net
        = Except.ok (none,
            ["https://files.rcsb.org/view/" ++ jsToUpperCase pid ++ ".pdb",
             "https://models.rcsb.org/" ++ jsToUpperCase pid ++ ".pdb"])) := by
  have htr : truthy (some (JsVal.vStr pid)) = true := by
    simp [truthy, truthyV, hp]
  refine ⟨?_, ?_, ?_⟩
  · intro b hb
    simp [fetchPdbData, htr, urlsToTry, fetchLoop, hb]
  · intro h1 b hb
    cases hok : net ("https://files.rcsb.org/view/" ++ jsToUpperCase pid ++ ".pdb") with
    | ok x => rw [hok] at h1; cases h1
    | httpError =>
      simp [fetchPdbData, htr, urlsToTry, fetchLoop, hok, hb]
    | netError =>
      simp [fetchPdbData, htr, urlsToTry, fetchLoop, hok, hb]
  · intro h1 h2
    cases hok : net ("https://files.rcsb.org/view/" ++ jsToUpperCase pid ++ ".pdb") with
    | ok x => rw [hok] at h1; cases h1
    | httpError =>
      cases hok2 : net ("https://models.rcsb.org/" ++ jsToUpperCase pid ++ ".pdb") with
      | ok x => rw [hok2] at h2; cases h2
      | httpError => simp [fetchPdbData, htr, urlsToTry, fetchLoop, hok, hok2]
      | netError => simp [fetchPdbData, htr, urlsToTry, fetchLoop, hok, hok2]
    | netError =>
      cases hok2 : net ("https://models.rcsb.org/" ++ jsToUpperCase pid ++ ".pdb") with
      | ok x => rw [hok2] at h2; cases h2
      | httpError => simp [fetchPdbData, htr, urlsToTry, fetchLoop, hok, hok2]
      | netError => simp [fetchPdbData, htr, urlsToTry, fetchLoop, hok, hok2]

/-- Witness for claim C6 at the lowercase identifier `"1abc"` and a
transport where only the second source succeeds. -/
theorem c6_witness :
    fetchPdbData (some (JsVal.vStr "1abc")) netW
      = Except.ok (some "BODY2",
          ["https://files.rcsb.org/view/1ABC.pdb", "https://models.rcsb.org/1ABC.pdb"]) := by
  have h := c6_theorem "1abc" netW (by decide)
  exact h.2.1 (by rfl) "BODY2" (by rfl)

/-! ## Claim C10 -/

/-- Claim C10: a null, undefined, or empty-string identifier makes the
structure fetcher return null immediately, with no URL built and no
network request issued (the request log is empty and the result does not
depend on the transport). -/
theorem c10_theorem (net : String → NetOutcome String) :
    fetchPdbData none net = Except.ok (none, [])
  ∧ fetchPdbData (some JsVal.vNull) net = Except.ok (none, [])
  ∧ fetchPdbData (some (JsVal.vStr "")) net = Except.ok (none, []) :=
  ⟨rfl, rfl, rfl⟩

/-! ## Claim C7 -/

/-- Claim C7: triggering evolve with no previously generated sequence
fails locally with the no-prior-design message; the returned state does
not depend on the oracle call or the network (no network call is made)
and every field other than the error banner is unchanged. -/
theorem c7_theorem (st : AppState) (apiCall : Except String JsVal)
    (net : String → NetOutcome String) (h : st.generatedSequence = "") :
    handleEvolve st apiCall net = { st with error := noPriorDesignMsg } := by
  simp [handleEvolve, h]

/-- Witness for claim C7 at the initial state. -/
theorem c7_witness :
    handleEvolve initialState (Except.ok JsVal.vNull) (fun _ => NetOutcome.netError)
      = { initialState with error := noPriorDesignMsg } :=
  c7_theorem initialState (Except.ok JsVal.vNull) (fun _ => NetOutcome.netError) (by rfl)

/-! ## Claim C4 -/

/-- Claim C4 counterexample: on a failing generate attempt started from a
state holding earlier results, the previous sequence and analysis are
still displayed (they are not reset to empty before the attempt); only the
error banner is new. -/
theorem c4_counterexample :
    (handleGenerate stOld (Except.error oracleUnavailableMsg)
        (fun _ => NetOutcome.netError)).generatedSequence = "OLDSEQ"
  ∧ (handleGenerate stOld (Except.error oracleUnavailableMsg)
        (fun _ => NetOutcome.netError)).analysis = JsVal.vStr "old analysis"
  ∧ (handleGenerate stOld (Except.error oracleUnavailableMsg)
        (fun _ => NetOutcome.netError)).error = oracleUnavailableMsg
  ∧ ("OLDSEQ" : String) ≠ "" :=
  ⟨rfl, rfl, rfl, by decide⟩

/-- Claim C4 amended: on generate, the result state is not reset before
the oracle attempt; only the error banner is cleared and the busy flag
set.  If the attempt fails, the resulting state keeps every previously
displayed result field and shows the failure message in the error banner
with the busy flag cleared. -/
theorem c4_amended_theorem (st : AppState) (msg : String)
    (net : String → NetOutcome String) :
    handleGenerate st (Except.error msg) net
      = { st with isLoading := false, error := msg } :=
  rfl

/-! ## Claim C1 -/

/-- Claim C1 counterexample: an incomplete response (no identifier) that
carries an `error` field but no analysis alias fails with the fixed
`"Analysis not provided."` sentinel as its reason — the `error` alias text
is not surfaced, because the sentinel was already substituted into the
resolved analysis value before the reason fallback chain runs. -/
theorem c1_counterexample :
    processResult r1cx
      = Except.error (ProcessError.incomplete (JsVal.vStr "Analysis not provided."))
  ∧ ("Analysis not provided." : String) ≠ "quota exceeded"
  ∧ getField r1cx "error" = some (JsVal.vStr "quota exceeded") :=
  ⟨rfl, by decide, rfl⟩

/-- Claim C1 amended: normalization accepts a response only if the
resolved sequence is a non-empty string and the resolved identifier is
truthy, and every other failure of an object-shaped response is an
incomplete-result failure.  Its reason is the resolved analysis value —
the oracle's analysis text when an analysis alias is present, else the
fixed `"Analysis not provided."` sentinel — and the `error` alias is
surfaced only in the corner case where the resolved analysis value is
falsy (an object that flattens to the empty string). -/
theorem c1_amended_theorem (r : JsVal) :
    (∀ res, processResult r = Except.ok res →
        res.sequence ≠ "" ∧ truthy (getField r "pdb_id") = true)
  ∧ (∀ e, isObjectLike r = true → processResult r = Except.error e →
        ∃ reason, e = ProcessError.incomplete reason)
  ∧ (∀ reason, processResult r = Except.error (ProcessError.incomplete reason) →
        (truthyV (resolveAnalysis r) = true → reason = resolveAnalysis r)
      ∧ (truthyV (resolveAnalysis r) = false → truthy (getField r "error") = true →
          some reason = getField r "error")
      ∧ (truthyV (resolveAnalysis r) = false → truthy (getField r "error") = false →
          reason = JsVal.vStr "The AI did not provide a valid sequence or PDB ID.")) := by
  refine ⟨?_, ?_, ?_⟩
  · intro res hres
    simp only [processResult] at hres
    split at hres
    · cases hres
    · split at hres
      · rename_i hcond
        rw [Bool.and_eq_true] at hcond
        injection hres with h1
        subst h1
        exact ⟨strOfSeq_ne _ hcond.1, hcond.2⟩
      · cases hres
  · intro e hobj he
    simp only [processResult] at he
    split at he
    · rename_i hfalse
      rw [hobj] at hfalse
      simp at hfalse
    · split at he
      · cases he
      · injection he with h1
        exact ⟨_, h1.symm⟩
  · intro reason hres
    simp only [processResult] at hres
    split at hres
    · cases hres
    · split at hres
      · cases hres
      · injection hres with h1
        injection h1 with h2
        subst h2
        refine ⟨?_, ?_, ?_⟩
        · intro ht
          simp [incompleteReason, ht]
        · intro hf he
          cases hg : getField r "error" with
          | none =>
            rw [hg] at he
            simp [truthy] at he
          | some v =>
            rw [hg] at he
            simp [incompleteReason, hf, jsOrD, he, hg]
        · intro hf he
          simp [incompleteReason, hf, jsOrD, he]

/-- Witness for claim C1: the reason of the concrete incomplete response
is the resolved analysis value, and the minimal accepted response yields a
non-empty sequence with a truthy identifier. -/
theorem c1_amended_witness :
    (JsVal.vStr "Analysis not provided." = resolveAnalysis r1cx)
  ∧ ((mkDefaultRes "MVLK" "1ABC").sequence ≠ ""
      ∧ truthy (getField baseObj "pdb_id") = true) := by
  constructor
  · have h := c1_amended_theorem r1cx
    exact (h.2.2 (JsVal.vStr "Analysis not provided.") rfl).1 rfl
  · have h := c1_amended_theorem baseObj
    exact h.1 (mkDefaultRes "MVLK" "1ABC") rfl

/-! ## Claim C3 -/

/-- Claim C3 counterexample: with `sequence` present, non-null but empty
and `generated_sequence` present and non-empty, the claim's "first
present, non-null alias" rule resolves the empty string (which could not
be accepted), while the code skips the falsy first alias and accepts the
response with the second alias's value. -/
theorem c3_counterexample :
    specFirstPresentNonNull r3cx seqAliasKeys = some (JsVal.vStr "")
  ∧ processResult r3cx = Except.ok (mkDefaultRes "MVLK" "1ABC")
  ∧ ("MVLK" : String) ≠ "" :=
  ⟨rfl, rfl, by decide⟩

/-- Claim C3 amended: the sequence aliases `sequence`,
`generated_sequence`, `amino_acid_sequence`, `evolved_sequence` all
resolve to the same accepted record, both for a plain string value and for
an object wrapping the string under an `amino_acid_sequence` sub-key
(unwrapped one level); the analysis aliases `analysis`,
`analysis_function`, `function_analysis`, `analysis_goal` likewise resolve
to the same accepted analysis text.  The chains take the first *truthy*
alias (JS `||`), so a present but falsy alias (null, empty string) is
skipped rather than selected. -/
theorem c3_amended_theorem (s a pid : String) (hs : s ≠ "") (ha : a ≠ "")
    (hp : pid ≠ "") :
    (∀ k ∈ seqAliasKeys,
        processResult (JsVal.vObj [(k, JsVal.vStr s), ("pdb_id", JsVal.vStr pid)])
          = Except.ok (mkDefaultRes s pid)
      ∧ processResult (JsVal.vObj
            [(k, JsVal.vObj [("amino_acid_sequence", JsVal.vStr s)]),
             ("pdb_id", JsVal.vStr pid)])
          = Except.ok (mkDefaultRes s pid))
  ∧ (∀ k ∈ analysisAliasKeys,
      processResult (JsVal.vObj
          [("sequence", JsVal.vStr s), ("pdb_id", JsVal.vStr pid), (k, JsVal.vStr a)])
        = Except.ok { mkDefaultRes s pid with analysis := JsVal.vStr a }) := by
  constructor
  · intro k hk
    simp only [seqAliasKeys, List.mem_cons, List.not_mem_nil, or_false] at hk
    rcases hk with rfl | rfl | rfl | rfl <;>
      exact ⟨by simp [processResult, resolveSequence, resolveSequenceRaw, unwrapSequence,
          resolveAnalysis, getField, lookupField, jsOr, jsOrD, truthy, truthyV,
          isObjectLike, isNonEmptyString, strOfSeq, mkDefaultRes, hs, hp],
        by simp [processResult, resolveSequence, resolveSequenceRaw, unwrapSequence,
          resolveAnalysis, getField, lookupField, jsOr, jsOrD, truthy, truthyV,
          isObjectLike, isNonEmptyString, strOfSeq, mkDefaultRes, hs, hp]⟩
  · intro k hk
    simp only [analysisAliasKeys, List.mem_cons, List.not_mem_nil, or_false] at hk
    rcases hk with rfl | rfl | rfl | rfl <;>
      simp [processResult, resolveSequence, resolveSequenceRaw, unwrapSequence,
        resolveAnalysis, getField, lookupField, jsOr, jsOrD, truthy, truthyV,
        isObjectLike, isNonEmptyString, strOfSeq, mkDefaultRes, hs, hp, ha]

/-- Witness for claim C3: the `evolved_sequence` alias and the
`generated_sequence`-wrapped alias at concrete values, via the amended
theorem. -/
theorem c3_amended_witness :
    processResult (JsVal.vObj
        [("evolved_sequence", JsVal.vStr "MVLK"), ("pdb_id", JsVal.vStr "1ABC")])
      = Except.ok (mkDefaultRes "MVLK" "1ABC")
  ∧ processResult (JsVal.vObj
        [("generated_sequence", JsVal.vObj [("amino_acid_sequence", JsVal.vStr "MVLK")]),
         ("pdb_id", JsVal.vStr "1ABC")])
      = Except.ok (mkDefaultRes "MVLK" "1ABC") := by
  have h := c3_amended_theorem "MVLK" "x" "1ABC" (by decide) (by decide) (by decide)
  exact ⟨(h.1 "evolved_sequence" (by simp [seqAliasKeys])).1,
    (h.1 "generated_sequence" (by simp [seqAliasKeys])).2⟩

/-! ## Claim C8 -/

/-- Claim C8 counterexample: a numeric binding-affinity score equal to 0
is present and type-plausible, yet it is not carried through — the `||`
chain treats 0 as falsy and defaults the field to null. -/
theorem c8_counterexample :
    processResult (mkNums (JsVal.vNum 0 1) (JsVal.vNum 3 1))
      = Except.ok
          { mkDefaultRes "MVLK" "1ABC" with predictedStability := JsVal.vNum 3 1 }
  ∧ JsVal.vNull ≠ JsVal.vNum 0 1 :=
  ⟨rfl, fun h => JsVal.noConfusion h⟩

/-- Claim C8 amended: the numeric fields and the two list fields are
carried through unchanged when present and truthy — for numbers that
means non-zero (a present 0 falls through the `||` chain to null), while
arrays are always truthy, so even empty lists are carried; absent fields
default to null (numbers) or the empty list (lists); no type checking is
performed beyond truthiness. -/
theorem c8_amended_theorem :
    (∀ (n : Int) (d : Nat) (m : Int) (e : Nat), n ≠ 0 → m ≠ 0 →
      processResult (mkNums (JsVal.vNum n d) (JsVal.vNum m e))
        = Except.ok
            { mkDefaultRes "MVLK" "1ABC" with
              bindingAffinity := JsVal.vNum n d
              predictedStability := JsVal.vNum m e })
  ∧ (processResult (mkNums (JsVal.vNum 0 1) (JsVal.vNum 0 1))
        = Except.ok (mkDefaultRes "MVLK" "1ABC"))
  ∧ (processResult baseObj = Except.ok (mkDefaultRes "MVLK" "1ABC"))
  ∧ (∀ xs ys : List JsVal,
      processResult (mkLists xs ys)
        = Except.ok
            { mkDefaultRes "MVLK" "1ABC" with
              bindingPocketResidues := JsVal.vArr xs
              validationSteps := JsVal.vArr ys }) := by
  refine ⟨?_, rfl, rfl, fun xs ys => rfl⟩
  intro n d m e hn hm
  simp [processResult, mkNums, resolveSequence, resolveSequenceRaw, unwrapSequence,
    resolveAnalysis, getField, lookupField, jsOr, jsOrD, truthy, truthyV,
    isObjectLike, isNonEmptyString, strOfSeq, mkDefaultRes, hn, hm]

/-- Witness for claim C8 at concrete non-zero scores. -/
theorem c8_amended_witness :
    processResult (mkNums (JsVal.vNum (-7) 1) (JsVal.vNum 35 10))
      = Except.ok
          { mkDefaultRes "MVLK" "1ABC" with
            bindingAffinity := JsVal.vNum (-7) 1
            predictedStability := JsVal.vNum 35 10 } :=
  c8_amended_theorem.1 (-7) 1 35 10 (by decide) (by decide)

/-! ## Claim C9 -/

/-- Claim C9: when the resolved analysis value is an object, normalization
flattens it by joining the object's values with the blank-line separator,
and the accepted record carries the flattened text as its analysis
field. -/
theorem c9_theorem (s pid : String) (kvs : List (String × JsVal))
    (hs : s ≠ "") (hp : pid ≠ "") :
    processResult (JsVal.vObj
        [("sequence", JsVal.vStr s), ("pdb_id", JsVal.vStr pid),
         ("analysis", JsVal.vObj kvs)])
      = Except.ok
          { mkDefaultRes s pid with
            analysis := JsVal.vStr (jsJoinList " \n\n" (kvs.map Prod.snd)) } := by
  simp [processResult, resolveSequence, resolveSequenceRaw, unwrapSequence,
    resolveAnalysis, getField, lookupField, jsOr, jsOrD, truthy, truthyV,
    isObjectLike, isNonEmptyString, strOfSeq, mkDefaultRes, hs, hp]

/-- Witness for claim C9: a two-field analysis object flattens to the two
texts separated by a blank line. -/
theorem c9_witness :
    processResult (JsVal.vObj
        [("sequence", JsVal.vStr "MW"), ("pdb_id", JsVal.vStr "1ABC"),
         ("analysis", JsVal.vObj [("x", JsVal.vStr "Alpha"), ("y", JsVal.vStr "Beta")])])
      = Except.ok
          { mkDefaultRes "MW" "1ABC" with analysis := JsVal.vStr "Alpha \n\nBeta" } :=
  c9_theorem "MW" "1ABC" [("x", JsVal.vStr "Alpha"), ("y", JsVal.vStr "Beta")]
    (by decide) (by decide)

/-! ## Claim C5 -/

/-- Claim C5 counterexample: on text containing two disjoint JSON objects
there is a first balanced brace span which parses successfully, but the
greedy extraction takes the whole span from the first opening brace to the
last closing brace, which is not valid JSON, so normalization fails with
the malformed-JSON error instead of parsing the first balanced span. -/
theorem c5_counterexample :
    specFirstBalancedSpan twoObjText = some "\x7b\"a\":1\x7d"
  ∧ jsonParse "\x7b\"a\":1\x7d" = some (JsVal.vObj [("a", JsVal.vNum 1 1)])
  ∧ extractCandidate twoObjText = twoObjText
  ∧ parseOracleText twoObjText = Except.error OracleError.malformedOracleJson :=
  ⟨rfl, rfl, rfl, rfl⟩

/-- Claim C5 amended: the extraction takes the greedy span from the first
opening brace to the last closing brace (not the first balanced span) when
the text contains such a pair; otherwise it strips code-fence markers and
trims.  On the code-fenced example quoted by the specification the
embedded object is extracted and parsed successfully, and whenever the
extracted candidate fails to parse as JSON, normalization of a non-empty
text fails with the malformed-JSON error. -/
theorem c5_amended_theorem :
    (parseOracleText fencedText
        = Except.ok (JsVal.vObj
            [("sequence", JsVal.vStr "MVLK"), ("pdb_id", JsVal.vStr "1ABC")]))
  ∧ (extractCandidate fencedText = "\x7b\"sequence\":\"MVLK\",\"pdb_id\":\"1ABC\"\x7d")
  ∧ (extractCandidate "```json\nhello\n```" = "hello")
  ∧ (∀ text : String, text ≠ "" → jsonParse (extractCandidate text) = none →
      parseOracleText text = Except.error OracleError.malformedOracleJson)
  ∧ (∀ text : String, text ≠ "" → ∀ v, jsonParse (extractCandidate text) = some v →
      parseOracleText text = Except.ok v) := by
  refine ⟨rfl, rfl, rfl, ?_, ?_⟩
  · intro t ht hp
    simp [parseOracleText, ht, hp]
  · intro t ht v hv
    simp [parseOracleText, ht, hv]

/-- Witness for claim C5: a non-empty text whose extracted candidate is
not valid JSON fails with the malformed-JSON error. -/
theorem c5_amended_witness :
    parseOracleText "\x7boops" = Except.error OracleError.malformedOracleJson :=
  c5_amended_theorem.2.2.2.1 "\x7boops" (by decide) (by rfl)
